import Mathlib

/-!
Shallow embedding of `src/index.ts` of the auto-mod repository: a Bluesky
Jetstream consumer that labels posts containing images without alt text.

The external collaborators (the Jetstream transport, the LabelerServer
storage, pino logging, the file system) are modelled at their interface
boundary: file system state for the cursor file is explicit, the labeling
call's success or failure is a parameter, and each callback of the source
is translated to a pure function from its inputs to the list of observable
actions it performs, in order.
-/

namespace AutoMod

/-- An image inside an images embed. `alt` is the alt-text field:
`none` models an absent/undefined field, `some s` a present string
(the empty string `some ""` being present-but-empty). -/
structure Image where
  alt : Option String
deriving DecidableEq

/-- The `record.embed` of a post, as the handler inspects it:
either an embed whose `$type` is `app.bsky.embed.images` carrying a list
of images, or anything else (a different `$type`, or no embed at all) —
the handler treats all of those alike via the
`record.embed?.$type !== 'app.bsky.embed.images'` guard. -/
inductive Embed where
  | images (imgs : List Image)
  | other
deriving DecidableEq

/-- A post-creation event as consumed by the `onCreate` handler:
`did` is `event.did`, `rkey` is `event.commit.rkey`, `cid` is
`event.commit.cid`, and `embed` is `event.commit.record.embed`. -/
structure PostEvent where
  did : String
  rkey : String
  cid : String
  embed : Embed
deriving DecidableEq

/-- The argument object of a `labelerServer.createLabel` call. -/
structure LabelRequest where
  uri : String
  cid : Option String
  neg : Bool
  val : String
deriving DecidableEq

/-- An observable action of the `onCreate` handler, in program order:
a `console.log` line, a `console.error` line, a `createLabel` call being
issued, or an exception escaping the handler (which the source's
`try`/`catch` prevents for `createLabel` failures). -/
inductive HandlerEffect where
  | logged (msg : String)
  | errorLogged (msg : String)
  | labelCall (req : LabelRequest)
  | crash (msg : String)
deriving DecidableEq

/-- The subject URI built by the handler:
`at://` + `event.did` + `/app.bsky.feed.post/` + `event.commit.rkey`. -/
def subjectUri (did rkey : String) : String :=
  "at://" ++ did ++ "/app.bsky.feed.post/" ++ rkey

/-- JS truthiness test `!img.alt` on the alt field: `undefined` and the
empty string are falsy, every nonempty string is truthy. -/
def imgMissingAlt (img : Image) : Bool :=
  match img.alt with
  | none => true
  | some s => s == ""

/-- `images.some((img) => !img.alt)` from the handler. -/
def hasImagesWithoutAlt (images : List Image) : Bool :=
  images.any imgMissingAlt

/-- The body of `jetstream.onCreate('app.bsky.feed.post', (event) => ...)`.
`did_cfg` is the configured `DID` constant; `labelError` is `none` when the
`labelerServer.createLabel` call returns normally and `some msg` when it
throws an `Error` whose message is `msg` (the thrown call is still an
issued call; the `catch` then prints both `console.error` lines of the
source, the second one rendering the error via JS string conversion
`Error: msg`). The result is the ordered list of observable actions. -/
def onCreatePost (did_cfg : String) (labelError : Option String)
    (event : PostEvent) : List HandlerEffect :=
  if event.did ≠ did_cfg then []
  else
    match event.embed with
    | Embed.other => []
    | Embed.images images =>
      let uri := subjectUri event.did event.rkey
      if ¬ hasImagesWithoutAlt images then []
      else
        HandlerEffect.logged ("Post with missing alt text detected: " ++ uri) ::
        match labelError with
        | none =>
          [HandlerEffect.labelCall ⟨uri, some event.cid, false, "no-alt-text"⟩,
           HandlerEffect.logged ("Label \"no alt text\" added to " ++ uri)]
        | some msg =>
          [HandlerEffect.labelCall ⟨uri, some event.cid, false, "no-alt-text"⟩,
           HandlerEffect.errorLogged ("Failed to label post: " ++ msg),
           HandlerEffect.errorLogged ("Failed to label post: Error: " ++ msg)]

/-- The label-creation calls issued among a handler's effects, in order. -/
def labelCalls (effects : List HandlerEffect) : List LabelRequest :=
  effects.filterMap fun e =>
    match e with
    | HandlerEffect.labelCall r => some r
    | _ => none

/-- The qualification decision of the handler: the conjunction of its three
early-return guards (`event.did !== DID`, embed `$type` not images, and
`!hasImagesWithoutAlt`), read off the source in order. -/
def classify (did_cfg : String) (e : PostEvent) : Bool :=
  if e.did ≠ did_cfg then false
  else
    match e.embed with
    | Embed.other => false
    | Embed.images images => hasImagesWithoutAlt images

/-! ### JS numbers, `Number(string)` and `toString` for the cursor file -/

/-- A JS number as the cursor code uses it: either an actual (natural)
number or `NaN`. Cursor values are nonnegative integer microsecond
timestamps, so the embedding restricts actual values to `Nat`. -/
inductive JSNum where
  | num (n : Nat)
  | nan
deriving DecidableEq

/-- The numeric value of a decimal digit character, `none` otherwise. -/
def charDigit (c : Char) : Option Nat :=
  if 48 ≤ c.toNat ∧ c.toNat ≤ 57 then some (c.toNat - 48) else none

/-- Parse a list of characters as big-endian decimal digit values;
`none` as soon as one character is not a digit. -/
def parseDigits : List Char → Option (List Nat)
  | [] => some []
  | c :: cs =>
    match charDigit c, parseDigits cs with
    | some d, some ds => some (d :: ds)
    | _, _ => none

/-- Modelled subset of the JS `Number(string)` conversion, covering the
inputs the cursor code can meet: the empty string converts to `0`
(as in JS), a nonempty all-digit string converts to its decimal value,
and every other string converts to `NaN` — in particular `Number` never
throws. (Signs, fractions, exponents, radix prefixes and whitespace
trimming are outside the cursor file's value space and are not modelled.) -/
def jsNumber (s : String) : JSNum :=
  if s.data.isEmpty then JSNum.num 0
  else
    match parseDigits s.data with
    | some ds => JSNum.num (Nat.ofDigits 10 ds.reverse)
    | none => JSNum.nan

/-- JS `Number.prototype.toString()` (radix 10) for a natural number:
`"0"` for zero, otherwise the decimal digits most-significant first. -/
def jsToString (n : Nat) : String :=
  if n = 0 then "0"
  else String.mk (((Nat.digits 10 n).reverse).map Nat.digitChar)

/-- `toString` of a possibly-NaN JS number; `(NaN).toString()` is `"NaN"`. -/
def jsNumToString : JSNum → String
  | JSNum.num n => jsToString n
  | JSNum.nan => "NaN"

/-- JS truthiness of `jetstream.cursor : number | undefined`:
`undefined`, `0` and `NaN` are falsy; every other number is truthy. -/
def jsTruthy : Option JSNum → Bool
  | none => false
  | some JSNum.nan => false
  | some (JSNum.num n) => !(n == 0)

/-! ### The cursor file and the startup load -/

/-- State of the cursor file location: absent (reads fail with `ENOENT`),
present with a string content, or present but unreadable (reads throw an
error with some other code, e.g. `EACCES`). -/
inductive FileState where
  | absent
  | present (content : String)
  | unreadable (code : String)
deriving DecidableEq

/-- Outcome of `fs.readFileSync(CURSOR_FILE, 'utf8')` on a file state. -/
inductive ReadResult where
  | ok (content : String)
  | errENOENT
  | err (code : String)
deriving DecidableEq

/-- `fs.readFileSync` on the modelled cursor file. -/
def readFileSync : FileState → ReadResult
  | FileState.absent => ReadResult.errENOENT
  | FileState.present s => ReadResult.ok s
  | FileState.unreadable c => ReadResult.err c

/-- An observable action of the startup sequence, in program order. -/
inductive StartupAction where
  | logged (msg : String)
  | errorLogged (msg : String)
  | persistCursor (content : String)
  | startStream (cursor : JSNum)
  | exitProcess (code : Nat)
deriving DecidableEq

/-- Whether `new Date(us / 1000).toISOString()` succeeds for a cursor of
`us` microseconds — the computation done by `epochUsToDateTime`. A JS
`Date` time value is valid when it is not `NaN` and its magnitude is at
most 8.64e15 milliseconds, so a (nonnegative) microsecond count `n` is
valid exactly when `n ≤ 8.64e18`; on an invalid time value `toISOString`
throws `RangeError: Invalid time value`. -/
def jsDateValidUs : JSNum → Bool
  | JSNum.nan => false
  | JSNum.num n => n ≤ 8640000000000000000

/-- The startup cursor load (the top-level `try`/`catch` of the source)
followed by the construction and start of the Jetstream with the loaded
cursor. `now_ms` is `Date.now()` in milliseconds; the synthesized cursor
is `Math.floor(Date.now() * 1000)`, i.e. `now_ms * 1000` microseconds.

On a successful read the cursor is `Number(content)`; `Number` itself
does not throw on unparsable content, but the very next statement's
template literal evaluates `epochUsToDateTime(cursor)` still inside the
`try`, and `new Date(cursor / 1000).toISOString()` throws a `RangeError`
when the cursor is `NaN` or out of the valid `Date` range. A plain
`RangeError` carries no `code` property, so the `catch` routes it to the
non-`ENOENT` branch: `logger.error(error); process.exit(1)`, after which
no further startup action runs — the same branch a throwing read with a
non-`ENOENT` code takes.

The `ENOENT` branch's own log also calls `epochUsToDateTime`, on the
freshly synthesized `Date.now() * 1000`, which for a wall clock lies far
below the 8.64e18-microsecond validity bound, so that call cannot throw
and is modelled as returning. Log texts are modelled without the
`epochUsToDateTime` datetime suffix, which needs calendar formatting. -/
def startupActions (fs : FileState) (now_ms : Nat) : List StartupAction :=
  StartupAction.logged "Trying to read cursor from cursor.txt..." ::
  match readFileSync fs with
  | ReadResult.ok s =>
    if jsDateValidUs (jsNumber s) then
      [StartupAction.logged ("Cursor found: " ++ jsNumToString (jsNumber s)),
       StartupAction.startStream (jsNumber s)]
    else
      [StartupAction.errorLogged "RangeError: Invalid time value",
       StartupAction.exitProcess 1]
  | ReadResult.errENOENT =>
    let c := now_ms * 1000
    [StartupAction.logged
       ("Cursor not found in cursor.txt, setting cursor to: " ++ jsToString c),
     StartupAction.persistCursor (jsToString c),
     StartupAction.startStream (JSNum.num c)]
  | ReadResult.err code =>
    [StartupAction.errorLogged code, StartupAction.exitProcess 1]

/-- `fs.writeFileSync(CURSOR_FILE, cursor.toString(), 'utf8')`: overwrites
the cursor file with the decimal rendering of the value, whatever was
there before. -/
def writeCursorFile (c : Nat) (_fs : FileState) : FileState :=
  FileState.present (jsToString c)

/-! ### The periodic checkpoint tick, shutdown, and the listen callback -/

/-- An observable action of one checkpoint-interval tick. -/
inductive TickAction where
  | logged (msg : String)
  | writeCursorAsync (content : String)
deriving DecidableEq

/-- One tick of the `cursorUpdateInterval` timer installed on `open`:
`if (jetstream.cursor) { log; fs.writeFile(...cursor.toString()...) }`.
The argument is `jetstream.cursor`, `none` modelling `undefined`. -/
def cursorIntervalTick (cursor : Option JSNum) : List TickAction :=
  match cursor with
  | some v =>
    if jsTruthy (some v) then
      [TickAction.logged ("Cursor updated to: " ++ jsNumToString v),
       TickAction.writeCursorAsync (jsNumToString v)]
    else []
  | none => []

/-- An observable action of the `SIGINT` handler, in program order. -/
inductive ShutdownAction where
  | logged (msg : String)
  | writeCursorSync (content : String)
  | closeStream
  | exitProcess (code : Nat)
deriving DecidableEq

/-- The `process.on('SIGINT', ...)` handler: logs, synchronously writes
`jetstream.cursor!.toString()` to the cursor file with
`fs.writeFileSync`, closes the Jetstream connection, and exits with
status 0. The argument is the in-memory `jetstream.cursor` (the source's
non-null assertion `!` presumes it is defined). -/
def onSigint (cursor : JSNum) : List ShutdownAction :=
  [ShutdownAction.logged "Shutting down...",
   ShutdownAction.writeCursorSync (jsNumToString cursor),
   ShutdownAction.closeStream,
   ShutdownAction.exitProcess 0]

/-- An observable action of the `labelerServer.app.listen` callback. -/
inductive ListenAction where
  | logged (msg : String)
  | errorLogged (msg : String)
  | labelCall (req : LabelRequest)
  | exitProcess (code : Nat)
deriving DecidableEq

/-- The `labelerServer.app.listen({ port, host }, (error, address) => ...)`
callback: on a startup error it logs `logger.error('Error starting
server: %s', error)` and returns — nothing else happens in this callback;
on success it logs the address and issues the hardcoded one-off
`createLabel` for a fixed post (no `cid`). -/
def listenCallback (error : Option String) (address : String) :
    List ListenAction :=
  match error with
  | some e => [ListenAction.errorLogged ("Error starting server: " ++ e)]
  | none =>
    [ListenAction.logged ("Labeler server listening on " ++ address),
     ListenAction.labelCall
       ⟨"at://imlunahey.com/app.bsky.feed.post/3lgyti2673c2u", none, false,
        "no-alt-text"⟩,
     ListenAction.logged
       ("Label \"no alt text\" added to at://imlunahey.com/app.bsky.feed.post/3lgyti2673c2u")]

/-! ### Substring check (for the content of log messages) -/

/-- Whether `needle` occurs as a leading run of `hay`. -/
def listIsPre : List Char → List Char → Bool
  | [], _ => true
  | _ :: _, [] => false
  | a :: as, b :: bs => (a == b) && listIsPre as bs

/-- Whether `needle` occurs as a contiguous run anywhere in `hay`. -/
def listHasRun (needle : List Char) : List Char → Bool
  | [] => listIsPre needle []
  | c :: cs => listIsPre needle (c :: cs) || listHasRun needle cs

/-- Whether the string `sub` occurs as a contiguous substring of `s`. -/
def strContainsStr (s sub : String) : Bool :=
  listHasRun sub.data s.data

/-- Whether some `console.error` line among the effects mentions `uri`. -/
def errorLogMentions (effects : List HandlerEffect) (uri : String) : Bool :=
  effects.any fun e =>
    match e with
    | HandlerEffect.errorLogged m => strContainsStr m uri
    | _ => false

/-- Whether a tick performed a write to the cursor file. -/
def tickWrites (acts : List TickAction) : Bool :=
  acts.any fun a =>
    match a with
    | TickAction.writeCursorAsync _ => true
    | _ => false

/-! ### Round-trip of the decimal rendering through `Number` -/

theorem charDigit_digitChar {d : Nat} (hd : d < 10) :
    charDigit (Nat.digitChar d) = some d := by
  interval_cases d <;> rfl

theorem parseDigits_map_digitChar (l : List Nat) (h : ∀ d ∈ l, d < 10) :
    parseDigits (l.map Nat.digitChar) = some l := by
  induction l with
  | nil => rfl
  | cons d t ih =>
    have hd : d < 10 := h d (List.mem_cons_self d t)
    have ht : parseDigits (t.map Nat.digitChar) = some t :=
      ih fun x hx => h x (List.mem_cons_of_mem d hx)
    simp [parseDigits, charDigit_digitChar hd, ht]

theorem jsNumber_jsToString (n : Nat) : jsNumber (jsToString n) = JSNum.num n := by
  by_cases h : n = 0
  · subst h; rfl
  · have hne : Nat.digits 10 n ≠ [] := Nat.digits_ne_nil_iff_ne_zero.mpr h
    have hlt : ∀ d ∈ (Nat.digits 10 n).reverse, d < 10 := fun d hd =>
      Nat.digits_lt_base (by norm_num) (List.mem_reverse.mp hd)
    have hdata :
        (String.mk (((Nat.digits 10 n).reverse).map Nat.digitChar)).data
          = ((Nat.digits 10 n).reverse).map Nat.digitChar := rfl
    have hemp : (((Nat.digits 10 n).reverse).map Nat.digitChar).isEmpty = false := by
      simp [List.isEmpty_iff, hne]
    rw [jsToString, if_neg h, jsNumber, hdata, hemp,
      parseDigits_map_digitChar _ hlt]
    simp [Nat.ofDigits_digits]

/-! ### Helper lemmas about the classifier -/

theorem imgMissingAlt_iff (img : Image) :
    imgMissingAlt img = true ↔ img.alt = none ∨ img.alt = some "" := by
  cases h : img.alt with
  | none => simp [imgMissingAlt, h]
  | some s => simp [imgMissingAlt, h]

theorem hasImagesWithoutAlt_iff (imgs : List Image) :
    hasImagesWithoutAlt imgs = true ↔
      ∃ img ∈ imgs, img.alt = none ∨ img.alt = some "" := by
  simp [hasImagesWithoutAlt, List.any_eq_true, imgMissingAlt_iff]

theorem onCreatePost_of_not_classify (did_cfg : String)
    (labelError : Option String) (e : PostEvent)
    (h : classify did_cfg e = false) :
    onCreatePost did_cfg labelError e = [] := by
  cases e with
  | mk did rkey cid embed =>
    by_cases hdid : did = did_cfg
    · subst hdid
      cases embed with
      | other => simp [onCreatePost]
      | images imgs =>
        have h' : hasImagesWithoutAlt imgs = false := by
          simpa [classify] using h
        simp [onCreatePost, h']
    · simp [onCreatePost, hdid]

/-! ### Claim theorems -/

/-- C1: for every inbound post-creation event that qualifies (actor equal
to the configured target actor, an images embed, and at least one image
with empty or absent alt text), exactly one label-creation call is
issued, whether or not that call then throws, and its request has subject
URI exactly `at://` + actor + `/app.bsky.feed.post/` + rkey, label value
`no-alt-text`, and negation flag `false`. -/
theorem c1_qualifying_event_single_label_call
    (did_cfg : String) (labelError : Option String) (e : PostEvent)
    (imgs : List Image)
    (hdid : e.did = did_cfg)
    (hembed : e.embed = Embed.images imgs)
    (halt : ∃ img ∈ imgs, img.alt = none ∨ img.alt = some "") :
    labelCalls (onCreatePost did_cfg labelError e) =
      [⟨"at://" ++ e.did ++ "/app.bsky.feed.post/" ++ e.rkey, some e.cid,
        false, "no-alt-text"⟩] := by
  have hq : hasImagesWithoutAlt imgs = true :=
    (hasImagesWithoutAlt_iff imgs).mpr halt
  cases e with
  | mk did rkey cid embed =>
    simp only at hdid hembed
    subst hdid
    subst hembed
    cases labelError <;>
      simp [onCreatePost, labelCalls, subjectUri, hq]

/-- Witness for C1: the spec's scenario event (actor `did:abc`, one image
with empty alt, rkey `xyz`) yields exactly the expected call. -/
theorem c1_qualifying_event_single_label_call_witness :
    labelCalls (onCreatePost "did:abc" none
        ⟨"did:abc", "xyz", "cid0", Embed.images [⟨some ""⟩]⟩) =
      [⟨"at://did:abc/app.bsky.feed.post/xyz", some "cid0", false,
        "no-alt-text"⟩] := by
  have h := c1_qualifying_event_single_label_call "did:abc" none
    ⟨"did:abc", "xyz", "cid0", Embed.images [⟨some ""⟩]⟩ [⟨some ""⟩]
    rfl rfl ⟨⟨some ""⟩, by simp, Or.inr rfl⟩
  simpa using h

/-- C2: the qualification decision is false when the actor differs from
the configured target, false when the embed is not of the images kind,
and — for a matching-actor images embed — true exactly when some image
has an empty or absent alt-text string; and when the decision is false
the handler issues no label call. -/
theorem c2_classification_decision
    (did_cfg : String) (labelError : Option String) (e : PostEvent) :
    (e.did ≠ did_cfg → classify did_cfg e = false) ∧
    (e.embed = Embed.other → classify did_cfg e = false) ∧
    (∀ imgs, e.did = did_cfg → e.embed = Embed.images imgs →
      (classify did_cfg e = true ↔
        ∃ img ∈ imgs, img.alt = none ∨ img.alt = some "")) ∧
    (classify did_cfg e = false →
      labelCalls (onCreatePost did_cfg labelError e) = []) := by
  refine ⟨?_, ?_, ?_, ?_⟩
  · intro h
    simp [classify, h]
  · intro h
    cases e with
    | mk did rkey cid embed =>
      simp only at h
      subst h
      simp [classify]
  · intro imgs hdid hembed
    cases e with
    | mk did rkey cid embed =>
      simp only at hdid hembed
      subst hdid
      subst hembed
      simp [classify, hasImagesWithoutAlt_iff]
  · intro h
    rw [onCreatePost_of_not_classify did_cfg labelError e h]
    rfl

/-- Witness for C2: instantiated at the spec's scenario event with a
non-matching actor and at a matching images-embed event. -/
theorem c2_classification_decision_witness :
    classify "did:abc" ⟨"did:other", "xyz", "cid0", Embed.other⟩ = false ∧
    labelCalls (onCreatePost "did:abc" none
      ⟨"did:other", "xyz", "cid0", Embed.other⟩) = [] := by
  have h := c2_classification_decision "did:abc" none
    ⟨"did:other", "xyz", "cid0", Embed.other⟩
  have hc : classify "did:abc" ⟨"did:other", "xyz", "cid0", Embed.other⟩
      = false := h.1 (by decide)
  exact ⟨hc, h.2.2.2 hc⟩

/-- C10: when the target actor configuration is absent (defaulted to the
empty string), every event with a non-empty actor identifier makes the
handler return at the first guard: no effect at all, in particular no
label call, is produced. -/
theorem c10_empty_did_never_labels (labelError : Option String)
    (e : PostEvent) (h : e.did ≠ "") :
    onCreatePost "" labelError e = [] := by
  simp [onCreatePost, h]

/-- Witness for C10: a concrete qualifying-looking event whose actor is
non-empty produces no effects under the empty target actor. -/
theorem c10_empty_did_never_labels_witness :
    ("did:abc" : String) ≠ "" ∧
    onCreatePost "" none ⟨"did:abc", "xyz", "cid0",
      Embed.images [⟨some ""⟩]⟩ = [] :=
  ⟨by decide, c10_empty_did_never_labels none
    ⟨"did:abc", "xyz", "cid0", Embed.images [⟨some ""⟩]⟩ (by decide)⟩

/-- C3: the startup cursor load signals NotFound (taking the synthesize
branch) only when the cursor file does not exist — a present file, even
an unreadable one, never yields `ENOENT`; and every other read or parse
failure aborts startup with exit status 1 instead of continuing with a
guessed position: a read that throws with a non-`ENOENT` code is logged
and exits, and content that does not parse as a number yields `NaN`,
whose rendering through `epochUsToDateTime` inside the `try` throws a
`RangeError` that the `catch` routes to the same logging-and-exit
branch. -/
theorem c3_nonparse_or_throwing_read_aborts
    (now_ms : Nat) (code s : String) :
    readFileSync (FileState.present s) ≠ ReadResult.errENOENT ∧
    readFileSync (FileState.unreadable code) ≠ ReadResult.errENOENT ∧
    StartupAction.exitProcess 1 ∉ startupActions FileState.absent now_ms ∧
    startupActions (FileState.unreadable code) now_ms =
      [StartupAction.logged "Trying to read cursor from cursor.txt...",
       StartupAction.errorLogged code,
       StartupAction.exitProcess 1] ∧
    (jsNumber s = JSNum.nan →
      startupActions (FileState.present s) now_ms =
        [StartupAction.logged "Trying to read cursor from cursor.txt...",
         StartupAction.errorLogged "RangeError: Invalid time value",
         StartupAction.exitProcess 1]) := by
  refine ⟨by simp [readFileSync], by simp [readFileSync], ?_, rfl, ?_⟩
  · simp [startupActions, readFileSync]
  · intro hnan
    simp [startupActions, readFileSync, hnan, jsDateValidUs]

/-- Witness for C3: instantiated at error code `EACCES`, the unparsable
content `garbage` (whose `Number` conversion is `NaN`), and a concrete
clock value; both failure shapes end in `process.exit(1)`. -/
theorem c3_nonparse_or_throwing_read_aborts_witness :
    startupActions (FileState.unreadable "EACCES") 1700000000000 =
      [StartupAction.logged "Trying to read cursor from cursor.txt...",
       StartupAction.errorLogged "EACCES",
       StartupAction.exitProcess 1] ∧
    startupActions (FileState.present "garbage") 1700000000000 =
      [StartupAction.logged "Trying to read cursor from cursor.txt...",
       StartupAction.errorLogged "RangeError: Invalid time value",
       StartupAction.exitProcess 1] := by
  have h := c3_nonparse_or_throwing_read_aborts 1700000000000
    "EACCES" "garbage"
  exact ⟨h.2.2.2.1, h.2.2.2.2 rfl⟩

/-- C4 counterexample: when the listener fails to start, the `listen`
callback only logs the error and returns — it does not call
`process.exit(1)`, so the process does not abort and the already-started
stream keeps running without the listener. -/
theorem c4_listen_error_does_not_exit :
    ListenAction.exitProcess 1 ∉
      listenCallback (some "EADDRINUSE") "127.0.0.1:4100" ∧
    listenCallback (some "EADDRINUSE") "127.0.0.1:4100" =
      [ListenAction.errorLogged "Error starting server: EADDRINUSE"] := by
  refine ⟨?_, rfl⟩
  decide

/-- C4 amended: on a listener startup error the callback logs
`Error starting server: ` + error and returns; it performs no further
action — in particular no process exit and no label call — so startup
proceeds partially with the stream running and no listener. -/
theorem c4_listen_error_logged_only (e address : String) :
    listenCallback (some e) address =
      [ListenAction.errorLogged ("Error starting server: " ++ e)] := rfl

/-- C5: when the cursor load signals `ENOENT`, the synthesized cursor is
exactly the current wall-clock time in milliseconds times 1000 (i.e.
microseconds, not epoch zero), it is persisted to the cursor file at
once, and that persist action precedes the start of stream
consumption. -/
theorem c5_enoent_synthesizes_now_us_and_persists_before_start
    (now_ms : Nat) :
    startupActions FileState.absent now_ms =
      [StartupAction.logged "Trying to read cursor from cursor.txt...",
       StartupAction.logged
         ("Cursor not found in cursor.txt, setting cursor to: " ++
           jsToString (now_ms * 1000)),
       StartupAction.persistCursor (jsToString (now_ms * 1000)),
       StartupAction.startStream (JSNum.num (now_ms * 1000))] := rfl

/-- C6 counterexample: for the qualifying scenario event with a throwing
label call (error message `boom`), no `console.error` line mentions the
subject URI — the two error lines carry only the error message, while the
URI appears in the earlier `console.log` detection line. -/
theorem c6_error_log_lacks_subject_uri :
    errorLogMentions
      (onCreatePost "did:abc" (some "boom")
        ⟨"did:abc", "xyz", "cid0", Embed.images [⟨some ""⟩]⟩)
      (subjectUri "did:abc" "xyz") = false ∧
    onCreatePost "did:abc" (some "boom")
        ⟨"did:abc", "xyz", "cid0", Embed.images [⟨some ""⟩]⟩ =
      [HandlerEffect.logged
         "Post with missing alt text detected: at://did:abc/app.bsky.feed.post/xyz",
       HandlerEffect.labelCall
         ⟨"at://did:abc/app.bsky.feed.post/xyz", some "cid0", false,
          "no-alt-text"⟩,
       HandlerEffect.errorLogged "Failed to label post: boom",
       HandlerEffect.errorLogged "Failed to label post: Error: boom"] := by
  constructor
  · rfl
  · rfl

/-- C6 amended: for every qualifying event whose label-creation call
throws, the handler logs the error in two `console.error` lines carrying
the error message (the subject URI having been logged by the preceding
detection line, not inside the error lines), control returns normally to
the caller — no exception escapes the handler — and stream consumption
continues. -/
theorem c6_label_failure_logged_and_handled
    (did_cfg msg : String) (e : PostEvent) (imgs : List Image)
    (hdid : e.did = did_cfg) (hembed : e.embed = Embed.images imgs)
    (halt : hasImagesWithoutAlt imgs = true) :
    onCreatePost did_cfg (some msg) e =
      [HandlerEffect.logged
         ("Post with missing alt text detected: " ++
           subjectUri e.did e.rkey),
       HandlerEffect.labelCall
         ⟨subjectUri e.did e.rkey, some e.cid, false, "no-alt-text"⟩,
       HandlerEffect.errorLogged ("Failed to label post: " ++ msg),
       HandlerEffect.errorLogged ("Failed to label post: Error: " ++ msg)] ∧
    ∀ m, HandlerEffect.crash m ∉ onCreatePost did_cfg (some msg) e := by
  cases e with
  | mk did rkey cid embed =>
    simp only at hdid hembed
    subst hdid
    subst hembed
    constructor
    · simp [onCreatePost, halt]
    · intro m
      simp [onCreatePost, halt]

/-- Witness for C6 amended: instantiated at the scenario event with error
message `boom`. -/
theorem c6_label_failure_logged_and_handled_witness :
    onCreatePost "did:abc" (some "boom")
        ⟨"did:abc", "xyz", "cid0", Embed.images [⟨some ""⟩]⟩ =
      [HandlerEffect.logged
         ("Post with missing alt text detected: " ++
           subjectUri "did:abc" "xyz"),
       HandlerEffect.labelCall
         ⟨subjectUri "did:abc" "xyz", some "cid0", false, "no-alt-text"⟩,
       HandlerEffect.errorLogged ("Failed to label post: " ++ "boom"),
       HandlerEffect.errorLogged
         ("Failed to label post: Error: " ++ "boom")] := by
  have h := c6_label_failure_logged_and_handled "did:abc" "boom"
    ⟨"did:abc", "xyz", "cid0", Embed.images [⟨some ""⟩]⟩ [⟨some ""⟩]
    rfl rfl (by decide)
  exact h.1

/-- C7: on `SIGINT` the process logs, synchronously writes the current
in-memory stream cursor (rendered by `toString`) to the cursor file,
closes the Jetstream connection, and exits with status 0 — in exactly
that order. -/
theorem c7_sigint_persists_closes_exits_zero (cursor : JSNum) :
    onSigint cursor =
      [ShutdownAction.logged "Shutting down...",
       ShutdownAction.writeCursorSync (jsNumToString cursor),
       ShutdownAction.closeStream,
       ShutdownAction.exitProcess 0] := rfl

/-- C8: a checkpoint tick with an unset (`undefined`) or zero cursor
performs no write at all, a tick with a `NaN` cursor likewise, and in
general a tick writes the cursor file exactly when the cursor is truthy
in the JS sense. -/
theorem c8_tick_writes_iff_truthy :
    cursorIntervalTick none = [] ∧
    cursorIntervalTick (some (JSNum.num 0)) = [] ∧
    cursorIntervalTick (some JSNum.nan) = [] ∧
    ∀ c, tickWrites (cursorIntervalTick c) = jsTruthy c := by
  refine ⟨rfl, rfl, rfl, ?_⟩
  intro c
  match c with
  | none => rfl
  | some JSNum.nan => rfl
  | some (JSNum.num n) =>
    by_cases h : n = 0
    · subst h; rfl
    · simp [cursorIntervalTick, jsTruthy, tickWrites, h]

/-- C9: saving a cursor value twice leaves the stored file content
identical to saving it once, reading the file back yields the decimal
rendering of the value, and converting that rendering with `Number`
recovers exactly the original integer. -/
theorem c9_cursor_save_idempotent_roundtrip (c : Nat) (fs : FileState) :
    writeCursorFile c (writeCursorFile c fs) = writeCursorFile c fs ∧
    readFileSync (writeCursorFile c fs) = ReadResult.ok (jsToString c) ∧
    jsNumber (jsToString c) = JSNum.num c :=
  ⟨rfl, rfl, jsNumber_jsToString c⟩

end AutoMod
